import Mathlib

/-!
# Verification of the impit impersonation / negotiation engine

Shallow embedding of the core of the `impit` repository:

* `src/impit/src/http_headers/mod.rs` — header assembly
  (`From<HttpHeaders> for HeaderMap`, `chrome_websocket_headers`);
* `src/impit/src/impit.rs` — the request dispatcher (`Impit::make_request`),
  URL validation (`Impit::parse_url`), the WebSocket adapter
  (`Impit::open_socket`) and engine construction (`Impit::new`);
* `src/src/retcher.rs` — the simpler `Retcher` engine with the
  vanilla-fallback retry.

External collaborators (the `reqwest`/`http` transport stack, the `url`
parser, the HTTP/3 capability engine) are modelled as oracles passed in as
arguments, or — where the repository's own code is not available under
`src/` — as definitions modelled from the specification (each such
definition says so in its doc comment).

Rust machine state that matters to the claims is made explicit:
* a `HashMap<String, String>` is represented by its (arbitrary) iteration
  sequence, a `List (String × String)` with pairwise distinct keys;
  Rust's `std::collections::HashMap` does not track insertion order, so the
  iteration sequence is any permutation of the inserted entries;
* `panic!` / `.unwrap()` / `.expect(...)` aborts are represented by an
  explicit `panic` outcome (or by `Option.none` for the header assembly);
* `std::env::set_var` is represented as an explicit component of the
  return value, so that the side effect is visible to the theorems.
-/

/-- `crate::emulation::Browser` — the closed enumeration of impersonation
targets dispatched on in `http_headers/mod.rs`. -/
inductive Browser
  | Chrome
  | Firefox
deriving DecidableEq, Repr

/-- `reqwest::Version` — the HTTP protocol versions, with their order. -/
inductive Version
  | HTTP_09
  | HTTP_10
  | HTTP_11
  | HTTP_2
  | HTTP_3
deriving DecidableEq, Repr

/-- Numeric rank of a `Version`, giving the derived order of `reqwest::Version`. -/
def Version.toNat : Version → Nat
  | .HTTP_09 => 0
  | .HTTP_10 => 1
  | .HTTP_11 => 2
  | .HTTP_2 => 3
  | .HTTP_3 => 4

/-- The `<` comparison on `reqwest::Version` used by the dispatcher guards. -/
def Version.lt (a b : Version) : Bool :=
  a.toNat < b.toNat

/-- Validity of a header-name character, modelled from the external `http`
crate's `HeaderName` byte table (token characters; uppercase letters are
accepted by parsing). The crate is an external collaborator; only the fact
that `HeaderName::from_str` is fallible matters to the embedding. -/
def isTokenChar (c : Char) : Bool :=
  let n := c.toNat
  n == 33 || (35 ≤ n && n ≤ 39) || n == 42 || n == 43 || n == 45 || n == 46 ||
    (48 ≤ n && n ≤ 57) || (65 ≤ n && n ≤ 90) || (94 ≤ n && n ≤ 96) ||
    (97 ≤ n && n ≤ 122) || n == 124 || n == 126

/-- `HeaderName::from_str` succeeds exactly on nonempty token strings. -/
def validHeaderName (s : String) : Bool :=
  !s.isEmpty && s.toList.all isTokenChar

/-- `HeaderValue::from_str` accepts horizontal tab and any byte that is
neither a control character below 0x20 nor DEL. -/
def validHeaderValue (s : String) : Bool :=
  s.toList.all fun c => c == Char.ofNat 9 || (32 ≤ c.toNat && c.toNat ≠ 127)

/-- ASCII lowercasing of a character, as the external `http` crate's
`HeaderName` parsing applies it byte by byte. -/
def lowerChar (c : Char) : Char :=
  if 65 ≤ c.toNat && c.toNat ≤ 90 then Char.ofNat (c.toNat + 32) else c

/-- The lowercase normalization `HeaderName::from_str` applies to every
accepted header name (byte-level ASCII lowercasing). -/
def lowerStr (s : String) : String :=
  String.mk (s.data.map lowerChar)

/-- `HashMap::get` on the iteration-sequence representation: the value of
the unique entry with the given key, when present. -/
def hmGet (m : List (String × String)) (k : String) : Option String :=
  (m.find? fun p => p.1 == k).map (·.2)

/-- The profile-defaults loop of `From<HttpHeaders> for HeaderMap`
(`src/impit/src/http_headers/mod.rs` lines 56–69): walk the profile's
`header_values`, taking the caller's value when `custom_headers.get(name)`
hits — an exact, case-sensitive `HashMap` lookup — (recording the name in
`used_custom_headers`), else the impersonated default, `append`ing to the
ordered header list.  `HeaderName::from_str` validates the name and
lowercase-normalizes it, so the stored name is `lowerStr name`; `none`
models the `.unwrap()` panic on a name/value rejected by the parser. -/
def mergeDefaults (custom : List (String × String)) :
    List (String × String) → List String → List (String × String) →
      List String × Option (List (String × String))
  | [], used, hs => (used, some hs)
  | (name, impersonated) :: rest, used, hs =>
    match hmGet custom name with
    | some customValue =>
      if validHeaderName name && validHeaderValue customValue then
        mergeDefaults custom rest (used ++ [name]) (hs ++ [(lowerStr name, customValue)])
      else (used ++ [name], none)
    | none =>
      if validHeaderName name && validHeaderValue impersonated then
        mergeDefaults custom rest used (hs ++ [(lowerStr name, impersonated)])
      else (used, none)

/-- The second loop of `From<HttpHeaders> for HeaderMap` (lines 71–78):
append every custom header whose (original, case-sensitive) name was not
consumed as an override, in the map's iteration order; the stored name is
again lowercase-normalized by `HeaderName::from_str`, so a caller key
that is a case-variant of a profile default collides with it on the
wire. -/
def appendExtras (used : List String) :
    List (String × String) → List (String × String) →
      Option (List (String × String))
  | [], hs => some hs
  | (n, v) :: rest, hs =>
    if used.contains n then appendExtras used rest hs
    else if validHeaderName n && validHeaderValue v then
      appendExtras used rest (hs ++ [(lowerStr n, v)])
    else none

/-- Both loops of `From<HttpHeaders> for HeaderMap` over an explicit
defaults table. -/
def assembleCore (header_values custom : List (String × String)) :
    Option (List (String × String)) :=
  match mergeDefaults custom header_values [] [] with
  | (used, some hs) => appendExtras used custom hs
  | (_, none) => none

/-- Modelled from the spec: the static per-browser header tables live in
`src/impit/src/http_headers/statics.rs`, which is not under `src/`.
§3 BrowserProfile: an "ordered sequence of (header-name, default-value)
pairs"; §8 requires every default name to occur once, so the table's names
are pairwise distinct. Representative values. -/
def CHROME_HEADERS : List (String × String) :=
  [("sec-ch-ua", "Chromium;v=126"),
   ("sec-ch-ua-mobile", "?0"),
   ("sec-ch-ua-platform", "Linux"),
   ("Upgrade-Insecure-Requests", "1"),
   ("User-Agent", "Mozilla/5.0 (X11; Linux x86_64) Chrome/126.0.0.0"),
   ("Accept", "text/html,application/xhtml+xml"),
   ("Accept-Encoding", "gzip, deflate, br, zstd"),
   ("Accept-Language", "en-US,en;q=0.9")]

/-- Modelled from the spec: the Firefox table of
`src/impit/src/http_headers/statics.rs` (not under `src/`). -/
def FIREFOX_HEADERS : List (String × String) :=
  [("User-Agent", "Mozilla/5.0 (X11; Linux x86_64; rv:128.0) Firefox/128.0"),
   ("Accept", "text/html,application/xhtml+xml"),
   ("Accept-Language", "en-US,en;q=0.5"),
   ("Accept-Encoding", "gzip, deflate, br, zstd"),
   ("Upgrade-Insecure-Requests", "1")]

/-- Modelled from the spec: Chrome's pseudo-header ordering table from
`statics.rs` (not under `src/`); §3: an "ordered sequence of pseudo-header
names". -/
def CHROME_PSEUDOHEADERS_ORDER : List String :=
  [":method", ":authority", ":scheme", ":path"]

/-- Modelled from the spec: Firefox's pseudo-header ordering table from
`statics.rs` (not under `src/`). -/
def FIREFOX_PSEUDOHEADERS_ORDER : List String :=
  [":method", ":path", ":authority", ":scheme"]

/-- Modelled from the spec: `statics::CHROME_SOCKET_HEADERS`, the fixed
browser-like WebSocket header table (`statics.rs` is not under `src/`);
§4.4: "a fixed browser-like header table (independent of the configured
profile)". Representative values. -/
def CHROME_SOCKET_HEADERS : List (String × String) :=
  [("Pragma", "no-cache"),
   ("Cache-Control", "no-cache"),
   ("User-Agent", "Mozilla/5.0 (X11; Linux x86_64) Chrome/126.0.0.0"),
   ("Origin", "chrome-extension"),
   ("Accept-Encoding", "gzip, deflate, br, zstd"),
   ("Accept-Language", "en-US,en;q=0.9")]

/-- `chrome_websocket_headers` (`http_headers/mod.rs` lines 7–12): the
static socket table collected into a `HashMap<String, String>`.  The
collect scrambles order; the iteration sequence is modelled as the table
order, which the claims about `open_socket` do not depend on. -/
def chrome_websocket_headers : List (String × String) :=
  CHROME_SOCKET_HEADERS

/-- The builder state of `HttpHeadersBuilder`
(`src/impit/src/http_headers/mod.rs` lines 84–90).  `custom_headers` holds
the iteration sequence of the caller's `HashMap`. -/
structure HttpHeadersBuilder where
  host : String := ""
  browser : Option Browser := none
  https : Bool := false
  custom_headers : List (String × String) := []
deriving DecidableEq, Repr

/-- The defaults table selected by browser (`mod.rs` lines 34–38). -/
def tableOf : Option Browser → List (String × String)
  | some .Chrome => CHROME_HEADERS
  | some .Firefox => FIREFOX_HEADERS
  | none => []

/-- The pseudo-header order selected by browser (`mod.rs` lines 40–44). -/
def pseudoOf : Option Browser → List String
  | some .Chrome => CHROME_PSEUDOHEADERS_ORDER
  | some .Firefox => FIREFOX_PSEUDOHEADERS_ORDER
  | none => []

/-- Result of the `From<HttpHeaders> for HeaderMap` conversion.
`envWrite` is the `std::env::set_var("IMPIT_H2_PSEUDOHEADERS_ORDER", …)`
payload when the write happens (`mod.rs` lines 46–51); `headers` is the
assembled ordered header list, `none` when an `.unwrap()` panics. -/
structure AssembledHeaders where
  envWrite : Option String
  headers : Option (List (String × String))
deriving DecidableEq, Repr

/-- `From<HttpHeaders> for HeaderMap` (`mod.rs` lines 30–82): select the
profile tables, perform the env-var write for a nonempty pseudo-header
order, then run the two header loops. -/
def fromHttpHeaders (b : HttpHeadersBuilder) : AssembledHeaders :=
  let header_values := tableOf b.browser
  let pseudo := pseudoOf b.browser
  { envWrite :=
      if pseudo.isEmpty then none
      else some (String.intercalate "," pseudo)
    headers := assembleCore header_values b.custom_headers }

/-- The defaults loop's output headers in closed form: each profile entry,
its name lowercase-normalized, valued by the caller's override when the
exact name is present, else the profile default. -/
def mergedProfile (hv custom : List (String × String)) : List (String × String) :=
  hv.map fun p => (lowerStr p.1, (hmGet custom p.1).getD p.2)

/-- The defaults loop's `used_custom_headers` in closed form: the profile
names for which the caller supplied an override. -/
def usedNames (hv custom : List (String × String)) : List String :=
  (hv.filter fun p => (hmGet custom p.1).isSome).map (·.1)

theorem hmGet_isSome_of_mem {custom : List (String × String)} {p : String × String}
    (hp : p ∈ custom) : (hmGet custom p.1).isSome = true := by
  unfold hmGet
  rcases hf : custom.find? (fun q => q.1 == p.1) with _ | q
  · rw [List.find?_eq_none] at hf
    exact absurd (by simp) (hf p hp)
  · rw [hf]; rfl

theorem hmGet_mem_valid {custom : List (String × String)} {k v : String}
    (Hc : ∀ p ∈ custom, validHeaderValue p.2 = true)
    (h : hmGet custom k = some v) : validHeaderValue v = true := by
  unfold hmGet at h
  rcases hf : custom.find? (fun q => q.1 == k) with _ | q
  · simp [hf] at h
  · have hq : q ∈ custom := List.mem_of_find?_eq_some hf
    rw [hf] at h
    simp only [Option.map_some', Option.some.injEq] at h
    exact h ▸ Hc q hq

theorem mergeDefaults_eq (custom hv : List (String × String))
    (Hhv : ∀ p ∈ hv, validHeaderName p.1 = true ∧ validHeaderValue p.2 = true)
    (Hc : ∀ p ∈ custom, validHeaderValue p.2 = true) :
    ∀ used hs, mergeDefaults custom hv used hs =
      (used ++ usedNames hv custom, some (hs ++ mergedProfile hv custom)) := by
  induction hv with
  | nil => intro used hs; simp [mergeDefaults, usedNames, mergedProfile]
  | cons p rest ih =>
    intro used hs
    obtain ⟨name, imp⟩ := p
    have hname := (Hhv _ (List.mem_cons_self _ _)).1
    have himp := (Hhv _ (List.mem_cons_self _ _)).2
    have ih' := ih fun q hq => Hhv q (List.mem_cons_of_mem _ hq)
    cases hfind : hmGet custom name with
    | some v =>
      have hvv : validHeaderValue v = true := hmGet_mem_valid Hc hfind
      simp only [mergeDefaults, hfind, hname, hvv, Bool.and_self, if_true]
      rw [ih']
      simp [usedNames, mergedProfile, hfind, List.filter_cons]
    | none =>
      simp only [mergeDefaults, hfind, hname, himp, Bool.and_self, if_true]
      rw [ih']
      simp [usedNames, mergedProfile, hfind, List.filter_cons]

theorem appendExtras_eq (used : List String) (custom : List (String × String))
    (Hc : ∀ p ∈ custom, validHeaderName p.1 = true ∧ validHeaderValue p.2 = true) :
    ∀ hs, appendExtras used custom hs =
      some (hs ++ (custom.filter fun p => !(used.contains p.1)).map
        fun p => (lowerStr p.1, p.2)) := by
  induction custom with
  | nil => intro hs; simp [appendExtras]
  | cons p rest ih =>
    intro hs
    obtain ⟨n, v⟩ := p
    have hn := (Hc _ (List.mem_cons_self _ _)).1
    have hv := (Hc _ (List.mem_cons_self _ _)).2
    have ih' := ih fun q hq => Hc q (List.mem_cons_of_mem _ hq)
    by_cases hused : n ∈ used
    · simp [appendExtras, hused, ih', List.filter_cons]
    · simp [appendExtras, hused, hn, hv, ih', List.filter_cons]

theorem assembleCore_eq (hv custom : List (String × String))
    (Hhv : ∀ p ∈ hv, validHeaderName p.1 = true ∧ validHeaderValue p.2 = true)
    (Hc : ∀ p ∈ custom, validHeaderName p.1 = true ∧ validHeaderValue p.2 = true) :
    assembleCore hv custom =
      some (mergedProfile hv custom ++
        (custom.filter fun p => !((usedNames hv custom).contains p.1)).map
          fun p => (lowerStr p.1, p.2)) := by
  unfold assembleCore
  rw [mergeDefaults_eq custom hv Hhv (fun p hp => (Hc p hp).2) [] []]
  simp only [List.nil_append]
  exact appendExtras_eq (usedNames hv custom) custom Hc (mergedProfile hv custom)

theorem usedNames_mem_iff {hv custom : List (String × String)}
    {p : String × String} (hp : p ∈ custom) :
    p.1 ∈ usedNames hv custom ↔ p.1 ∈ hv.map Prod.fst := by
  simp only [usedNames, List.mem_map, List.mem_filter]
  constructor
  · rintro ⟨q, ⟨hq, _⟩, he⟩
    exact ⟨q, hq, he⟩
  · rintro ⟨q, hq, he⟩
    refine ⟨q, ⟨hq, ?_⟩, he⟩
    rw [he]
    exact hmGet_isSome_of_mem hp

theorem usedNames_contains_of_mem {hv custom : List (String × String)}
    {p : String × String} (hp : p ∈ custom) :
    (usedNames hv custom).contains p.1 = (hv.map Prod.fst).contains p.1 := by
  rw [Bool.eq_iff_iff]
  simpa using @usedNames_mem_iff hv custom p hp

/-- Full closed form of the header assembly: the profile part (profile
order, override-or-default values) followed by the caller entries whose
names are not profile names, in the caller map's iteration order. -/
theorem assembleCore_closed (hv custom : List (String × String))
    (Hhv : ∀ p ∈ hv, validHeaderName p.1 = true ∧ validHeaderValue p.2 = true)
    (Hc : ∀ p ∈ custom, validHeaderName p.1 = true ∧ validHeaderValue p.2 = true) :
    assembleCore hv custom =
      some (mergedProfile hv custom ++
        (custom.filter fun p => !((hv.map Prod.fst).contains p.1)).map
          fun p => (lowerStr p.1, p.2)) := by
  rw [assembleCore_eq hv custom Hhv Hc]
  congr 2
  refine congrArg _ (List.filter_congr ?_)
  intro p hp
  rw [usedNames_contains_of_mem hp]

theorem mergedProfile_map_fst (hv custom : List (String × String)) :
    (mergedProfile hv custom).map Prod.fst = hv.map fun p => lowerStr p.1 := by
  induction hv with
  | nil => rfl
  | cons p rest ih => simp [mergedProfile, ih, List.map_cons]

theorem not_mem_extras_names {T M : List (String × String)} {a : String}
    (ha : a ∈ T.map Prod.fst) :
    a ∉ (M.filter fun p => !(T.map Prod.fst).contains p.1).map Prod.fst := by
  intro hmem
  rcases List.mem_map.mp hmem with ⟨q, hq, rfl⟩
  have hnc := (List.mem_filter.mp hq).2
  simp only [Bool.not_eq_true'] at hnc
  rw [Bool.eq_false_iff] at hnc
  exact hnc (by simpa using ha)

theorem tableOf_valid (b : Option Browser) :
    ∀ p ∈ tableOf b, validHeaderName p.1 = true ∧ validHeaderValue p.2 = true := by
  rcases b with _ | br
  · simp [tableOf]
  · cases br <;> decide

theorem tableOf_nodup (b : Option Browser) :
    ((tableOf b).map Prod.fst).Nodup := by
  rcases b with _ | br
  · simp [tableOf]
  · cases br <;> decide

theorem tableOf_nodup_lower (b : Option Browser) :
    ((tableOf b).map fun p => lowerStr p.1).Nodup := by
  rcases b with _ | br
  · simp [tableOf]
  · cases br <;> decide

/-- C2 is false as stated: `HeaderName::from_str` lowercase-normalizes
header names (mod.rs lines 65–68) while `custom_headers.get(name)` is a
case-sensitive `HashMap` lookup (line 57) and `used_custom_headers`
compares original names (line 72).  An override key that is a
case-variant of a profile default — here `user-agent` against Chrome's
`User-Agent` — misses the lookup, so the default is appended under the
lowercased name `user-agent`, and the extras loop then appends the
caller's entry under the same lowercased name: the name occurs twice in
the assembled set, refuting "exactly once" and "never silently
duplicated". -/
theorem claim_C2_counterexample :
    ((fromHttpHeaders { browser := some Browser.Chrome,
                        custom_headers := [("user-agent", "X")] }).headers.map
      fun l => (l.map Prod.fst).count "user-agent") = some 2 ∧
      (CHROME_HEADERS.map Prod.fst).contains "User-Agent" = true := by
  exact ⟨by decide, by decide⟩

theorem extras_lower_not_mem {T M : List (String × String)} {q : String × String}
    (hq : q ∈ T)
    (hcase : ∀ p ∈ M, ∀ q2 ∈ T, lowerStr p.1 = lowerStr q2.1 → p.1 = q2.1) :
    lowerStr q.1 ∉
      ((M.filter fun p => !(T.map Prod.fst).contains p.1).map
        fun p => (lowerStr p.1, p.2)).map Prod.fst := by
  intro hmem
  simp only [List.map_map, List.mem_map, Function.comp] at hmem
  rcases hmem with ⟨p, hpf, hpl⟩
  have hpM : p ∈ M := List.mem_of_mem_filter hpf
  have hnc := (List.mem_filter.mp hpf).2
  have hpq : p.1 = q.1 := hcase p hpM q hq hpl
  simp only [Bool.not_eq_true'] at hnc
  rw [Bool.eq_false_iff] at hnc
  exact hnc (by simpa [hpq] using List.mem_map_of_mem Prod.fst hq)

/-- C2 (amended): for every browser profile and every override mapping
with parser-accepted names/values, pairwise-distinct lowercased keys, and
no key that is a case-variant (equal ignoring case but not equal) of a
profile default name, the assembled header set starts with every profile
default name exactly once — lowercase-normalized by the header type — in
profile order, valued by the caller's override when the exact name was
supplied and by the profile default otherwise, and no header name is
duplicated.  A case-variant override key breaks this, duplicating the
lowercased name (see the counterexample). -/
theorem claim_C2_profile_defaults (br : Browser) (M : List (String × String))
    (host : String) (https : Bool)
    (hkeys : (M.map fun p => lowerStr p.1).Nodup)
    (hvalid : ∀ p ∈ M, validHeaderName p.1 = true ∧ validHeaderValue p.2 = true)
    (hcase : ∀ p ∈ M, ∀ q ∈ tableOf (some br),
      lowerStr p.1 = lowerStr q.1 → p.1 = q.1) :
    ∃ l, (fromHttpHeaders { host := host, browser := some br, https := https,
                            custom_headers := M }).headers = some l ∧
      l.take (tableOf (some br)).length =
        (tableOf (some br)).map (fun p => (lowerStr p.1, (hmGet M p.1).getD p.2)) ∧
      (∀ p ∈ tableOf (some br), (l.map Prod.fst).count (lowerStr p.1) = 1) ∧
      (l.map Prod.fst).Nodup := by
  have Hhv := tableOf_valid (some br)
  have hnodupT := tableOf_nodup_lower (some br)
  set T := tableOf (some br) with hT
  refine ⟨mergedProfile T M ++
    (M.filter fun p => !(T.map Prod.fst).contains p.1).map
      (fun p => (lowerStr p.1, p.2)), ?_, ?_, ?_, ?_⟩
  · show assembleCore T M = _
    exact assembleCore_closed T M Hhv hvalid
  · rw [List.take_left' (by simp [mergedProfile])]
    rfl
  · intro p hp
    have hmemT : lowerStr p.1 ∈ T.map fun q => lowerStr q.1 := by
      exact List.mem_map_of_mem _ hp
    rw [List.map_append, List.count_append, mergedProfile_map_fst,
      List.count_eq_one_of_mem hnodupT hmemT,
      List.count_eq_zero.mpr (extras_lower_not_mem hp hcase)]
  · rw [List.map_append, mergedProfile_map_fst]
    refine List.Nodup.append hnodupT ?_ ?_
    · have hsub : ((M.filter fun p => !(T.map Prod.fst).contains p.1).map
          (fun p => (lowerStr p.1, p.2))).map Prod.fst =
          (M.filter fun p => !(T.map Prod.fst).contains p.1).map
            fun p => lowerStr p.1 := by
        simp [List.map_map, Function.comp]
      rw [hsub]
      exact hkeys.sublist (List.Sublist.map _ (List.filter_sublist M))
    · intro a haT
      rcases List.mem_map.mp haT with ⟨q, hq, rfl⟩
      exact extras_lower_not_mem hq hcase

theorem claim_C2_profile_defaults_witness :
    ∃ l, (fromHttpHeaders { host := "example.com", browser := some Browser.Chrome,
                            https := true,
                            custom_headers := [("User-Agent", "custom-agent"),
                                               ("X-Extra", "1")] }).headers =
          some l ∧
      l.take (tableOf (some Browser.Chrome)).length =
        (tableOf (some Browser.Chrome)).map
          (fun p => (lowerStr p.1,
            (hmGet [("User-Agent", "custom-agent"), ("X-Extra", "1")] p.1).getD p.2)) ∧
      (∀ p ∈ tableOf (some Browser.Chrome),
        (l.map Prod.fst).count (lowerStr p.1) = 1) ∧
      (l.map Prod.fst).Nodup :=
  claim_C2_profile_defaults Browser.Chrome
    [("User-Agent", "custom-agent"), ("X-Extra", "1")] "example.com" true
    (by decide) (by decide) (by decide)

/-- C8 is false as stated: header assembly is not free of side effects or
failure.  With the Chrome profile configured it writes the process-wide
`IMPIT_H2_PSEUDOHEADERS_ORDER` environment variable
(`std::env::set_var`, `mod.rs` lines 46–51), and a caller-supplied header
name rejected by the header parser (here one containing a space) makes the
`.unwrap()` calls abort instead of returning. -/
theorem claim_C8_counterexample :
    (fromHttpHeaders { browser := some Browser.Chrome,
                       custom_headers := [("bad name", "x")] }).envWrite =
        some ":method,:authority,:scheme,:path" ∧
      (fromHttpHeaders { browser := some Browser.Chrome,
                         custom_headers := [("bad name", "x")] }).headers = none :=
  ⟨rfl, rfl⟩

/-- C8 (amended): header assembly performs no network I/O and, for header
names and values accepted by the header-field parser, always returns the
assembled set; but it is not entirely pure or total: configuring a profile
writes the process-wide pseudo-header-order environment variable, and a
name or value rejected by the parser aborts the assembly (`unwrap`
panic). -/
theorem claim_C8_assembly_behavior (b : HttpHeadersBuilder)
    (hc : ∀ p ∈ b.custom_headers, validHeaderName p.1 = true ∧ validHeaderValue p.2 = true) :
    (fromHttpHeaders b).envWrite =
      (if (pseudoOf b.browser).isEmpty then none
       else some (String.intercalate "," (pseudoOf b.browser))) ∧
    ∃ l, (fromHttpHeaders b).headers = some l := by
  refine ⟨rfl, ?_⟩
  have Hhv := tableOf_valid b.browser
  exact ⟨_, assembleCore_closed (tableOf b.browser) b.custom_headers Hhv hc⟩

theorem claim_C8_assembly_behavior_witness :
    (fromHttpHeaders { browser := some Browser.Firefox,
                       custom_headers := [("x-extra", "yes")] }).envWrite =
      (if (pseudoOf (some Browser.Firefox)).isEmpty then none
       else some (String.intercalate "," (pseudoOf (some Browser.Firefox)))) ∧
    ∃ l, (fromHttpHeaders { browser := some Browser.Firefox,
                            custom_headers := [("x-extra", "yes")] }).headers = some l :=
  claim_C8_assembly_behavior
    { browser := some Browser.Firefox, custom_headers := [("x-extra", "yes")] }
    (by decide)

/-- `ErrorType` (impit.rs lines 28–51); the wrapped `reqwest::Error` of the
`RequestError` variant is represented by its description string.  The
websocket/URI/HTTP wrapper variants belong to external collaborators and
are not needed by the claims. -/
inductive ErrorType
  | UrlParsingError
  | UrlMissingHostnameError
  | UrlProtocolError
  | Http3Disabled
  | RequestError (e : String)
deriving DecidableEq, Repr

/-- The outcome of the external `url::Url::parse` as consumed by
`parse_url`: a parsed URL carries its scheme, optional host and its
serialization (`Url::to_string`). -/
structure Url where
  scheme : String
  host : Option String
  asString : String
deriving DecidableEq, Repr

/-- `Impit::parse_url` (impit.rs lines 284–303): `UrlParsingError` when the
external parser failed, `UrlMissingHostnameError` when the URL has no
host, `UrlProtocolError` when the scheme is neither http nor https. -/
def parse_url (parsed : Option Url) : Except ErrorType Url :=
  match parsed with
  | none => .error .UrlParsingError
  | some u =>
    if u.host.isNone then .error .UrlMissingHostnameError
    else if u.scheme == "http" then .ok u
    else if u.scheme == "https" then .ok u
    else .error .UrlProtocolError

/-- Modelled from the spec: `RequestOptions` (`crate::request`, not under
`src/`); §3: per-call overrides — override headers (a `HashMap`,
represented by its iteration sequence), an explicit timeout, and the
force-upgraded-transport flag, exactly the fields `make_request` and
`open_socket` read. -/
structure RequestOptions where
  headers : List (String × String) := []
  timeout : Option Nat := none
  http3_prior_knowledge : Bool := false
deriving DecidableEq, Repr

/-- Modelled from the spec: `crate::http3::H3Engine` (not under `src/`).
§4.2 Transport Capability Cache: a map keyed by hostname recording whether
the upgraded transport is supported. -/
structure H3Engine where
  cache : List (String × Bool)
deriving DecidableEq, Repr

/-- Modelled from the spec: `H3Engine::init` — a fresh engine with an
empty capability cache (the one-time DNS seeding is part of the probe
collaborator). -/
def H3Engine.init : H3Engine :=
  { cache := [] }

/-- Modelled from the spec: `set(host, supported)` (§4.2) — insert or
update the host's record. -/
def H3Engine.set_h3_support (e : H3Engine) (host : String) (b : Bool) : H3Engine :=
  { cache := (host, b) :: e.cache.filter (fun p => p.1 != host) }

/-- The cached tri-state for a host: `none` is *unknown*. -/
def H3Engine.lookup (e : H3Engine) (host : String) : Option Bool :=
  (e.cache.find? (fun p => p.1 == host)).map (·.2)

/-- Modelled from the spec: `host_supports_h3` (§4.2, §6) — answer from
the cache when a record exists, else ask the out-of-band capability-probe
collaborator. -/
def H3Engine.host_supports_h3 (e : H3Engine) (probe : String → Bool)
    (host : String) : Bool :=
  match e.lookup host with
  | some b => b
  | none => probe host

/-- `RedirectBehavior` (impit.rs lines 76–85). -/
inductive RedirectBehavior
  | FollowRedirect (n : Nat)
  | ManualRedirect
deriving DecidableEq, Repr

/-- `ImpitBuilder` (impit.rs lines 103–126) with the defaults of its
`Default` impl (timeout in milliseconds). -/
structure ImpitBuilder where
  browser : Option Browser := none
  ignore_tls_errors : Bool := false
  vanilla_fallback : Bool := true
  proxy_url : String := ""
  request_timeout : Nat := 30000
  max_http_version : Version := .HTTP_2
  redirect : RedirectBehavior := .FollowRedirect 10
deriving DecidableEq, Repr

/-- The `Impit` engine state (impit.rs lines 58–64).  The two `reqwest`
transport clients and the websocket connector are external collaborator
objects; only the presence of the optional HTTP/3 client is observable to
the claims, so `h3_client` keeps just that presence. -/
structure Impit where
  h3_client : Option Unit
  h3_engine : Option H3Engine
  config : ImpitBuilder
deriving DecidableEq, Repr

/-- `Impit::new` (impit.rs lines 261–282): when the ceiling is HTTP/3 the
freshly built client becomes `h3_client` and the base client is rebuilt
with an HTTP/2 ceiling; otherwise `h3_client` stays `None`.  `h3_engine`
starts `None` in both cases. -/
def Impit.new (config : ImpitBuilder) : Impit :=
  { h3_client := if config.max_http_version = .HTTP_3 then some () else none
    h3_engine := none
    config := config }

/-- A transport response; only its header map is observable to the
dispatcher logic (the `Alt-Svc` inspection). -/
structure Response where
  headers : List (String × String)
deriving DecidableEq, Repr

/-- `HeaderMap::get` per the external `http` crate: case-insensitive name
lookup. -/
def Response.get (r : Response) (name : String) : Option String :=
  (r.headers.find? (fun p => lowerStr p.1 == lowerStr name)).map (·.2)

/-- Substring occurrence on character lists. -/
def hasSub (pat : List Char) : List Char → Bool
  | [] => pat.isEmpty
  | c :: rest => pat.isPrefixOf (c :: rest) || hasSub pat rest

/-- `alt_svc.contains("h3")` (impit.rs line 388): the dispatcher's check
that an `Alt-Svc` value advertises the upgraded protocol. -/
def altSvcAdvertisesH3 (v : String) : Bool :=
  hasSub "h3".toList v.toList

/-- `HeaderValue::to_str` of the external `http` crate: succeeds exactly
when every byte is visible ASCII or horizontal tab; bytes ≥ 0x80
(obs-text, legal in a header value) make it fail.  `make_request` calls
`.unwrap()` on it (impit.rs line 387). -/
def headerValueToStr (v : String) : Option String :=
  if v.toList.all (fun c => c == Char.ofNat 9 || (32 ≤ c.toNat && c.toNat < 127)) then
    some v
  else none

/-- Whether the `alt_svc.to_str().unwrap()` at impit.rs line 387 would
succeed for this response: no `Alt-Svc` header, or one whose value
`to_str` accepts. -/
def altSvcOk (resp : Response) : Bool :=
  match resp.get "Alt-Svc" with
  | some v => (headerValueToStr v).isSome
  | none => true

/-- `Impit::should_use_h3` (impit.rs lines 305–320): below an HTTP/3
ceiling the answer is `false` and `h3_engine` is left untouched;
otherwise `h3_engine` is initialized if absent and queried for the host.
Returns the answer together with the (possibly initialized) engine. -/
def Impit.should_use_h3 (self : Impit) (probe : String → Bool) (host : String) :
    Bool × Option H3Engine :=
  if Version.lt self.config.max_http_version .HTTP_3 then
    (false, self.h3_engine)
  else
    let e :=
      match self.h3_engine with
      | some e => e
      | none => H3Engine.init
    (e.host_supports_h3 probe host, some e)

/-- Outcome of one `make_request` run.  `panicked` models a Rust panic
(`.expect` / `.unwrap` on a failed value); its message distinguishes the
panic site. -/
inductive MkOutcome
  | panicked (msg : String)
  | err (e : ErrorType)
  | ok (r : Response)
deriving DecidableEq, Repr

/-- Result of one `make_request` run: outcome, number of transport
executions awaited, whether the HTTP/3 branch was selected, and the
engine state afterwards. -/
structure MkResult where
  outcome : MkOutcome
  networkCalls : Nat
  usedH3 : Bool
  impitAfter : Impit
deriving DecidableEq, Repr

/-- `Impit::make_request` (impit.rs lines 322–400).  External inputs are
explicit: `parsed` is the outcome of `url::Url::parse` on the url string,
`probe` the HTTP/3 capability-probe collaborator, and `send` the outcome
of this call's transport execution (`request.send().await`).  The order of
effects mirrors the source: prior-knowledge/ceiling guard, URL validation
(whose error the source `.expect`s — a panic), `should_use_h3`, client
selection (`h3_client.as_ref().unwrap()`), header conversion (fallible
`From` impl), sending, and — on a non-h3 success — the `Alt-Svc` cache
update. -/
def Impit.make_request (self : Impit) (method : String) (parsed : Option Url)
    (probe : String → Bool) (send : Except String Response)
    (body : Option (List Nat)) (options : Option RequestOptions) : MkResult :=
  let _ := method
  let _ := body
  let options := options.getD {}
  if options.http3_prior_knowledge &&
      Version.lt self.config.max_http_version .HTTP_3 then
    { outcome := .err .Http3Disabled, networkCalls := 0, usedH3 := false,
      impitAfter := self }
  else
    match parse_url parsed with
    | .error _ =>
      { outcome := .panicked "URL should be a valid URL", networkCalls := 0,
        usedH3 := false, impitAfter := self }
    | .ok u =>
      match u.host with
      | none =>
        { outcome := .panicked "host_str unwrap on None", networkCalls := 0,
          usedH3 := false, impitAfter := self }
      | some host =>
        let sh :=
          if options.http3_prior_knowledge then (false, self.h3_engine)
          else self.should_use_h3 probe host
        let h3 := options.http3_prior_knowledge || sh.1
        let self' : Impit := { self with h3_engine := sh.2 }
        if h3 && self'.h3_client.isNone then
          { outcome := .panicked "h3_client unwrap on None", networkCalls := 0,
            usedH3 := h3, impitAfter := self' }
        else
          let assembled := fromHttpHeaders
            { host := host, browser := self.config.browser,
              https := u.scheme == "https", custom_headers := options.headers }
          match assembled.headers with
          | none =>
            { outcome := .panicked "header unwrap", networkCalls := 0,
              usedH3 := h3, impitAfter := self' }
          | some _ =>
            match send with
            | .error e =>
              { outcome := .err (.RequestError e), networkCalls := 1,
                usedH3 := h3, impitAfter := self' }
            | .ok resp =>
              if !h3 then
                match self'.h3_engine with
                | some eng =>
                  let eng1 := eng.set_h3_support host false
                  match resp.get "Alt-Svc" with
                  | some v =>
                    match headerValueToStr v with
                    | none =>
                      { outcome := .panicked "alt_svc to_str unwrap on Err",
                        networkCalls := 1, usedH3 := h3,
                        impitAfter := { self' with h3_engine := some eng1 } }
                    | some sv =>
                      let eng2 :=
                        if altSvcAdvertisesH3 sv then eng1.set_h3_support host true
                        else eng1
                      { outcome := .ok resp, networkCalls := 1, usedH3 := h3,
                        impitAfter := { self' with h3_engine := some eng2 } }
                  | none =>
                    { outcome := .ok resp, networkCalls := 1, usedH3 := h3,
                      impitAfter := { self' with h3_engine := some eng1 } }
                | none =>
                  { outcome := .ok resp, networkCalls := 1, usedH3 := h3,
                    impitAfter := self' }
              else
                { outcome := .ok resp, networkCalls := 1, usedH3 := h3,
                  impitAfter := self' }

/-- `Impit::get` (impit.rs lines 480–486). -/
def Impit.get (self : Impit) (parsed : Option Url) (probe : String → Bool)
    (send : Except String Response) (o : Option RequestOptions) : MkResult :=
  self.make_request "GET" parsed probe send none o

/-- `Impit::head` (impit.rs lines 494–500). -/
def Impit.head (self : Impit) (parsed : Option Url) (probe : String → Bool)
    (send : Except String Response) (o : Option RequestOptions) : MkResult :=
  self.make_request "HEAD" parsed probe send none o

/-- `Impit::options` (impit.rs lines 508–514). -/
def Impit.options (self : Impit) (parsed : Option Url) (probe : String → Bool)
    (send : Except String Response) (o : Option RequestOptions) : MkResult :=
  self.make_request "OPTIONS" parsed probe send none o

/-- `Impit::trace` (impit.rs lines 522–528). -/
def Impit.trace (self : Impit) (parsed : Option Url) (probe : String → Bool)
    (send : Except String Response) (o : Option RequestOptions) : MkResult :=
  self.make_request "TRACE" parsed probe send none o

/-- `Impit::delete` (impit.rs lines 536–542). -/
def Impit.delete (self : Impit) (parsed : Option Url) (probe : String → Bool)
    (send : Except String Response) (o : Option RequestOptions) : MkResult :=
  self.make_request "DELETE" parsed probe send none o

/-- `Impit::post` (impit.rs lines 550–557). -/
def Impit.post (self : Impit) (parsed : Option Url) (probe : String → Bool)
    (send : Except String Response) (body : Option (List Nat))
    (o : Option RequestOptions) : MkResult :=
  self.make_request "POST" parsed probe send body o

/-- `Impit::put` (impit.rs lines 565–572). -/
def Impit.put (self : Impit) (parsed : Option Url) (probe : String → Bool)
    (send : Except String Response) (body : Option (List Nat))
    (o : Option RequestOptions) : MkResult :=
  self.make_request "PUT" parsed probe send body o

/-- `Impit::patch` (impit.rs lines 580–587). -/
def Impit.patch (self : Impit) (parsed : Option Url) (probe : String → Bool)
    (send : Except String Response) (body : Option (List Nat))
    (o : Option RequestOptions) : MkResult :=
  self.make_request "PATCH" parsed probe send body o

/-- The raw upgrade request handed to the external WebSocket collaborator
(`connect_async_tls_with_config`): method, target URI, protocol version
and header set, copied from the prepared `reqwest` request by the
`http::request::Builder` fold (impit.rs lines 455–469). -/
structure RawUpgrade where
  method : String
  uri : String
  version : Version
  headers : List (String × String)
deriving DecidableEq, Repr

/-- Outcome of one `open_socket` run.  `handshake raw` means the raw
upgrade request `raw` was handed to the external WebSocket-over-TLS
collaborator (whose own handshake outcome is external to the core). -/
inductive OsOutcome
  | panicked (msg : String)
  | err (e : ErrorType)
  | handshake (raw : RawUpgrade)
deriving DecidableEq, Repr

/-- Result of one `open_socket` run. -/
structure OsResult where
  outcome : OsOutcome
  networkCalls : Nat
  impitAfter : Impit
deriving DecidableEq, Repr

/-- `Impit::open_socket` (impit.rs lines 402–472).  The header builder is
invoked with host, https flag and the fixed Chrome websocket table as the
custom headers — and, unlike `make_request`, with no browser and without
the caller's `options.headers`.  The prepared request (method GET, the
parsed URL's serialization, version HTTP/3 when the h3 branch was
selected, else the `reqwest` default HTTP/1.1, and the assembled headers)
is copied field-by-field into the raw upgrade request. -/
def Impit.open_socket (self : Impit) (parsed : Option Url)
    (probe : String → Bool) (options : Option RequestOptions) : OsResult :=
  let options := options.getD {}
  let cwh := chrome_websocket_headers
  if options.http3_prior_knowledge &&
      Version.lt self.config.max_http_version .HTTP_3 then
    { outcome := .err .Http3Disabled, networkCalls := 0, impitAfter := self }
  else
    match parse_url parsed with
    | .error _ =>
      { outcome := .panicked "URL should be a valid URL", networkCalls := 0,
        impitAfter := self }
    | .ok u =>
      match u.host with
      | none =>
        { outcome := .panicked "host_str unwrap on None", networkCalls := 0,
          impitAfter := self }
      | some host =>
        let sh :=
          if options.http3_prior_knowledge then (false, self.h3_engine)
          else self.should_use_h3 probe host
        let h3 := options.http3_prior_knowledge || sh.1
        let self' : Impit := { self with h3_engine := sh.2 }
        if h3 && self'.h3_client.isNone then
          { outcome := .panicked "h3_client unwrap on None", networkCalls := 0,
            impitAfter := self' }
        else
          let assembled := fromHttpHeaders
            { host := host, https := u.scheme == "https", custom_headers := cwh }
          match assembled.headers with
          | none =>
            { outcome := .panicked "header unwrap", networkCalls := 0,
              impitAfter := self' }
          | some hdrs =>
            let version := if h3 then Version.HTTP_3 else Version.HTTP_11
            { outcome := .handshake
                { method := "GET", uri := u.asString, version := version,
                  headers := hdrs },
              networkCalls := 1, impitAfter := self' }

theorem version_eq_h3_of_not_lt :
    ∀ v : Version, Version.lt v .HTTP_3 = false → v = .HTTP_3 := by
  intro v h
  cases v <;> first | rfl | exact absurd h (by decide)

/-- A well-formed https URL for concrete instantiations. -/
def exampleUrl : Url :=
  { scheme := "https", host := some "example.com",
    asString := "https://example.com/" }

/-- C5: a call with `http3_prior_knowledge` set, on an engine whose
protocol ceiling is below HTTP/3, makes both `make_request` and
`open_socket` fail with `Http3Disabled` with zero transport executions. -/
theorem claim_C5_upgrade_disabled (config : ImpitBuilder) (method : String)
    (parsed : Option Url) (probe : String → Bool) (send : Except String Response)
    (body : Option (List Nat)) (opts : RequestOptions)
    (hceil : Version.lt config.max_http_version .HTTP_3 = true)
    (hflag : opts.http3_prior_knowledge = true) :
    ((Impit.new config).make_request method parsed probe send body (some opts)).outcome =
        .err .Http3Disabled ∧
      ((Impit.new config).make_request method parsed probe send body (some opts)).networkCalls = 0 ∧
      ((Impit.new config).open_socket parsed probe (some opts)).outcome =
        .err .Http3Disabled ∧
      ((Impit.new config).open_socket parsed probe (some opts)).networkCalls = 0 := by
  unfold Impit.make_request Impit.open_socket
  simp [Impit.new, hflag, hceil]

theorem claim_C5_upgrade_disabled_witness :
    ((Impit.new {}).make_request "GET" (some exampleUrl) (fun _ => false)
        (.ok { headers := [] }) none
        (some { http3_prior_knowledge := true })).outcome = .err .Http3Disabled ∧
      ((Impit.new {}).make_request "GET" (some exampleUrl) (fun _ => false)
        (.ok { headers := [] }) none
        (some { http3_prior_knowledge := true })).networkCalls = 0 ∧
      ((Impit.new {}).open_socket (some exampleUrl) (fun _ => false)
        (some { http3_prior_knowledge := true })).outcome = .err .Http3Disabled ∧
      ((Impit.new {}).open_socket (some exampleUrl) (fun _ => false)
        (some { http3_prior_knowledge := true })).networkCalls = 0 :=
  claim_C5_upgrade_disabled {} "GET" (some exampleUrl) (fun _ => false)
    (.ok { headers := [] }) none { http3_prior_knowledge := true }
    (by decide) (by decide)

/-- A parsable URL with no host component (a `data:` URL). -/
def dataUrl : Url :=
  { scheme := "data", host := none, asString := "data:text/plain,x" }

/-- A parsable URL whose scheme is neither http nor https. -/
def ftpUrl : Url :=
  { scheme := "ftp", host := some "example.com",
    asString := "ftp://example.com/" }

/-- C1: `parse_url` does produce the three typed URL errors, but
`make_request` unwraps its result with
`.expect("URL should be a valid URL")` (impit.rs lines 335–337), so every
Dispatcher entry point panics on an invalid URL instead of returning the
typed error to the caller.  Evaluated here on an unparsable input, a
hostless `data:` URL and an `ftp://` URL: `parse_url` yields
`UrlParsingError` / `UrlMissingHostnameError` / `UrlProtocolError`
respectively, yet all eight entry points abort with the `.expect` panic
(and zero network activity). -/
theorem claim_C1_url_errors_discarded :
    parse_url none = .error .UrlParsingError ∧
    parse_url (some dataUrl) = .error .UrlMissingHostnameError ∧
    parse_url (some ftpUrl) = .error .UrlProtocolError ∧
    ((Impit.new {}).get none (fun _ => false) (.ok { headers := [] }) none).outcome =
      .panicked "URL should be a valid URL" ∧
    ((Impit.new {}).head none (fun _ => false) (.ok { headers := [] }) none).outcome =
      .panicked "URL should be a valid URL" ∧
    ((Impit.new {}).options none (fun _ => false) (.ok { headers := [] }) none).outcome =
      .panicked "URL should be a valid URL" ∧
    ((Impit.new {}).trace none (fun _ => false) (.ok { headers := [] }) none).outcome =
      .panicked "URL should be a valid URL" ∧
    ((Impit.new {}).delete none (fun _ => false) (.ok { headers := [] }) none).outcome =
      .panicked "URL should be a valid URL" ∧
    ((Impit.new {}).post none (fun _ => false) (.ok { headers := [] }) none none).outcome =
      .panicked "URL should be a valid URL" ∧
    ((Impit.new {}).put none (fun _ => false) (.ok { headers := [] }) none none).outcome =
      .panicked "URL should be a valid URL" ∧
    ((Impit.new {}).patch none (fun _ => false) (.ok { headers := [] }) none none).outcome =
      .panicked "URL should be a valid URL" ∧
    ((Impit.new {}).get (some dataUrl) (fun _ => false)
      (.ok { headers := [] }) none).outcome = .panicked "URL should be a valid URL" ∧
    ((Impit.new {}).get (some ftpUrl) (fun _ => false)
      (.ok { headers := [] }) none).outcome = .panicked "URL should be a valid URL" ∧
    ((Impit.new {}).get none (fun _ => false) (.ok { headers := [] }) none).networkCalls = 0 :=
  ⟨rfl, rfl, rfl, rfl, rfl, rfl, rfl, rfl, rfl, rfl, rfl, rfl, rfl, rfl⟩

/-- C9: a transport failure inside `make_request` is surfaced as
`RequestError` wrapping the underlying cause, with exactly one transport
execution and no automatic retry, whatever the `vanilla_fallback` flag
(and the rest of the configuration) says: the dispatcher never executes
the transport more than once in a single call. -/
theorem claim_C9_transport_error_surfaced (i : Impit) (method : String)
    (parsed : Option Url) (probe : String → Bool) (e : String)
    (body : Option (List Nat)) (o : Option RequestOptions) :
    (i.make_request method parsed probe (.error e) body o).networkCalls ≤ 1 ∧
      ((i.make_request method parsed probe (.error e) body o).networkCalls = 1 →
        (i.make_request method parsed probe (.error e) body o).outcome =
          .err (.RequestError e)) := by
  unfold Impit.make_request
  dsimp only
  split
  · exact ⟨by simp, fun h => by simp_all⟩
  rcases hp : parse_url parsed with e1 | u
  · simp [hp]
  rcases hh : u.host with _ | host
  · simp [hp, hh]
  simp only [hp, hh]
  repeat' split
  all_goals exact ⟨by simp, fun h => by first | rfl | simp_all⟩

theorem claim_C9_transport_error_surfaced_witness :
    ((Impit.new {}).make_request "GET" (some exampleUrl) (fun _ => false)
        (.error "connection refused") none none).networkCalls ≤ 1 ∧
      (((Impit.new {}).make_request "GET" (some exampleUrl) (fun _ => false)
          (.error "connection refused") none none).networkCalls = 1 →
        ((Impit.new {}).make_request "GET" (some exampleUrl) (fun _ => false)
            (.error "connection refused") none none).outcome =
          .err (.RequestError "connection refused")) :=
  claim_C9_transport_error_surfaced (Impit.new {}) "GET" (some exampleUrl)
    (fun _ => false) "connection refused" none none

theorem should_use_h3_fst_true {i : Impit} {probe : String → Bool} {host : String}
    (h : (i.should_use_h3 probe host).1 = true) :
    i.config.max_http_version = .HTTP_3 := by
  unfold Impit.should_use_h3 at h
  split at h
  · simp at h
  · next hlt => exact version_eq_h3_of_not_lt _ (by simpa using hlt)

theorem make_request_preserves (i : Impit) (method : String) (parsed : Option Url)
    (probe : String → Bool) (send : Except String Response)
    (body : Option (List Nat)) (o : Option RequestOptions) :
    (i.make_request method parsed probe send body o).impitAfter.h3_client =
        i.h3_client ∧
      (i.make_request method parsed probe send body o).impitAfter.config = i.config := by
  unfold Impit.make_request
  dsimp only
  split
  · exact ⟨rfl, rfl⟩
  rcases hp : parse_url parsed with e1 | u
  · simp [hp]
  rcases hh : u.host with _ | host
  · simp [hp, hh]
  simp only [hp, hh]
  repeat' split
  all_goals exact ⟨rfl, rfl⟩

theorem open_socket_preserves (i : Impit) (parsed : Option Url)
    (probe : String → Bool) (o : Option RequestOptions) :
    (i.open_socket parsed probe o).impitAfter.h3_client = i.h3_client ∧
      (i.open_socket parsed probe o).impitAfter.config = i.config := by
  unfold Impit.open_socket
  dsimp only
  split
  · exact ⟨rfl, rfl⟩
  rcases hp : parse_url parsed with e1 | u
  · simp [hp]
  rcases hh : u.host with _ | host
  · simp [hp, hh]
  simp only [hp, hh]
  repeat' split
  all_goals exact ⟨rfl, rfl⟩

theorem make_request_no_unwrap (i : Impit) (method : String) (parsed : Option Url)
    (probe : String → Bool) (send : Except String Response)
    (body : Option (List Nat)) (o : Option RequestOptions)
    (hinv : i.h3_client.isSome = true ↔ i.config.max_http_version = .HTTP_3) :
    (i.make_request method parsed probe send body o).outcome ≠
      .panicked "h3_client unwrap on None" := by
  unfold Impit.make_request
  dsimp only
  split
  · simp
  next hguard =>
    rcases hp : parse_url parsed with e1 | u
    · simp [hp]
    rcases hh : u.host with _ | host
    · simp [hp, hh]
    simp only [hp, hh]
    by_cases hpk : (o.getD {}).http3_prior_knowledge = true
    · have hlt : Version.lt i.config.max_http_version .HTTP_3 = false := by
        simp only [hpk, Bool.true_and] at hguard
        simpa using hguard
      obtain ⟨c, hc⟩ := Option.isSome_iff_exists.mp
        (hinv.mpr (version_eq_h3_of_not_lt _ hlt))
      simp only [hpk, hc]
      repeat' split
      all_goals simp_all
    · have hpk2 : (o.getD {}).http3_prior_knowledge = false := by simpa using hpk
      by_cases hsh : (i.should_use_h3 probe host).1 = true
      · obtain ⟨c, hc⟩ := Option.isSome_iff_exists.mp
          (hinv.mpr (should_use_h3_fst_true hsh))
        simp only [hpk2, hsh, hc]
        repeat' split
        all_goals simp_all
      · have hsh2 : (i.should_use_h3 probe host).1 = false := by simpa using hsh
        simp only [hpk2, hsh2]
        repeat' split
        all_goals simp_all

theorem open_socket_no_unwrap (i : Impit) (parsed : Option Url)
    (probe : String → Bool) (o : Option RequestOptions)
    (hinv : i.h3_client.isSome = true ↔ i.config.max_http_version = .HTTP_3) :
    (i.open_socket parsed probe o).outcome ≠
      .panicked "h3_client unwrap on None" := by
  unfold Impit.open_socket
  dsimp only
  split
  · simp
  next hguard =>
    rcases hp : parse_url parsed with e1 | u
    · simp [hp]
    rcases hh : u.host with _ | host
    · simp [hp, hh]
    simp only [hp, hh]
    by_cases hpk : (o.getD {}).http3_prior_knowledge = true
    · have hlt : Version.lt i.config.max_http_version .HTTP_3 = false := by
        simp only [hpk, Bool.true_and] at hguard
        simpa using hguard
      obtain ⟨c, hc⟩ := Option.isSome_iff_exists.mp
        (hinv.mpr (version_eq_h3_of_not_lt _ hlt))
      simp only [hpk, hc]
      repeat' split
      all_goals simp_all
    · have hpk2 : (o.getD {}).http3_prior_knowledge = false := by simpa using hpk
      by_cases hsh : (i.should_use_h3 probe host).1 = true
      · obtain ⟨c, hc⟩ := Option.isSome_iff_exists.mp
          (hinv.mpr (should_use_h3_fst_true hsh))
        simp only [hpk2, hsh, hc]
        repeat' split
        all_goals simp_all
      · have hsh2 : (i.should_use_h3 probe host).1 = false := by simpa using hsh
        simp only [hpk2, hsh2]
        repeat' split
        all_goals simp_all

/-- C10: the unchecked `h3_client.as_ref().unwrap()` in `make_request` and
`open_socket` cannot fire.  `Impit::new` populates `h3_client` exactly
when the ceiling is HTTP/3; under that construction invariant the h3
branch is only selected when the ceiling is HTTP/3, so the dereference
never sees `None`; and both entry points preserve the invariant (they
only ever replace `h3_engine`). -/
theorem claim_C10_h3_client_invariant (config : ImpitBuilder) (i : Impit)
    (method : String) (parsed : Option Url) (probe : String → Bool)
    (send : Except String Response) (body : Option (List Nat))
    (o : Option RequestOptions)
    (hinv : i.h3_client.isSome = true ↔ i.config.max_http_version = .HTTP_3) :
    ((Impit.new config).h3_client.isSome = true ↔
        config.max_http_version = .HTTP_3) ∧
      (i.make_request method parsed probe send body o).outcome ≠
        .panicked "h3_client unwrap on None" ∧
      (i.open_socket parsed probe o).outcome ≠
        .panicked "h3_client unwrap on None" ∧
      (i.make_request method parsed probe send body o).impitAfter.h3_client =
        i.h3_client ∧
      (i.make_request method parsed probe send body o).impitAfter.config =
        i.config ∧
      (i.open_socket parsed probe o).impitAfter.h3_client = i.h3_client ∧
      (i.open_socket parsed probe o).impitAfter.config = i.config := by
  refine ⟨?_, make_request_no_unwrap i method parsed probe send body o hinv,
    open_socket_no_unwrap i parsed probe o hinv,
    (make_request_preserves i method parsed probe send body o).1,
    (make_request_preserves i method parsed probe send body o).2,
    (open_socket_preserves i parsed probe o).1,
    (open_socket_preserves i parsed probe o).2⟩
  unfold Impit.new
  by_cases h : config.max_http_version = .HTTP_3 <;> simp [h]

theorem claim_C10_h3_client_invariant_witness :
    (((Impit.new {}).h3_client.isSome = true ↔
        ({} : ImpitBuilder).max_http_version = .HTTP_3) ∧
      ((Impit.new {}).make_request "GET" (some exampleUrl) (fun _ => false)
          (.ok { headers := [] }) none none).outcome ≠
        .panicked "h3_client unwrap on None" ∧
      ((Impit.new {}).open_socket (some exampleUrl) (fun _ => false) none).outcome ≠
        .panicked "h3_client unwrap on None" ∧
      ((Impit.new {}).make_request "GET" (some exampleUrl) (fun _ => false)
          (.ok { headers := [] }) none none).impitAfter.h3_client =
        (Impit.new {}).h3_client ∧
      ((Impit.new {}).make_request "GET" (some exampleUrl) (fun _ => false)
          (.ok { headers := [] }) none none).impitAfter.config =
        (Impit.new {}).config ∧
      ((Impit.new {}).open_socket (some exampleUrl) (fun _ => false)
          none).impitAfter.h3_client = (Impit.new {}).h3_client ∧
      ((Impit.new {}).open_socket (some exampleUrl) (fun _ => false)
          none).impitAfter.config = (Impit.new {}).config) :=
  claim_C10_h3_client_invariant {} (Impit.new {}) "GET" (some exampleUrl)
    (fun _ => false) (.ok { headers := [] }) none none (by decide)

theorem H3Engine.lookup_set (e : H3Engine) (host : String) (b : Bool) :
    (e.set_h3_support host b).lookup host = some b := by
  unfold H3Engine.set_h3_support H3Engine.lookup
  simp [List.find?_cons]

theorem H3Engine.host_supports_h3_of_lookup (e : H3Engine) (probe : String → Bool)
    (host : String) (b : Bool) (h : e.lookup host = some b) :
    e.host_supports_h3 probe host = b := by
  unfold H3Engine.host_supports_h3
  rw [h]

/-- The capability verdict the dispatcher derives from a response
(impit.rs lines 386–395): `true` iff an `Alt-Svc` header is present, its
value survives `to_str`, and it contains `"h3"`. -/
def altSvcVerdict (resp : Response) : Bool :=
  match resp.get "Alt-Svc" with
  | some v =>
    match headerValueToStr v with
    | some sv => altSvcAdvertisesH3 sv
    | none => false
  | none => false

/-- The cache update applied after a successful non-h3 response
(impit.rs lines 382–397): mark the host unsupported, then supported when
an `Alt-Svc` header advertising h3 is present (when `to_str` fails the
call panics right after the unsupported mark, leaving just that mark). -/
def altSvcUpdate (eng : H3Engine) (host : String) (resp : Response) : H3Engine :=
  let eng := eng.set_h3_support host false
  match resp.get "Alt-Svc" with
  | some v =>
    match headerValueToStr v with
    | some sv => if altSvcAdvertisesH3 sv then eng.set_h3_support host true else eng
    | none => eng
  | none => eng

theorem altSvcUpdate_lookup (eng : H3Engine) (host : String) (resp : Response) :
    (altSvcUpdate eng host resp).lookup host = some (altSvcVerdict resp) := by
  unfold altSvcUpdate altSvcVerdict
  rcases resp.get "Alt-Svc" with _ | v
  · exact H3Engine.lookup_set _ _ _
  · dsimp only
    rcases headerValueToStr v with _ | sv
    · exact H3Engine.lookup_set _ _ _
    · dsimp only
      by_cases h : altSvcAdvertisesH3 sv
      · simp [h, H3Engine.lookup_set]
      · simp [h, H3Engine.lookup_set]

theorem should_use_h3_snd_of_ceiling (i : Impit) (probe : String → Bool)
    (host : String)
    (hlt : Version.lt i.config.max_http_version .HTTP_3 = false) :
    (i.should_use_h3 probe host).2 =
      some (match i.h3_engine with
            | some e => e
            | none => H3Engine.init) := by
  unfold Impit.should_use_h3
  simp [hlt]

theorem make_request_ok_noh3 (i : Impit) (method : String) (parsed : Option Url)
    (probe : String → Bool) (resp : Response) (body : Option (List Nat))
    (o : Option RequestOptions) (u : Url) (host : String)
    (hdrs : List (String × String))
    (hpk : (o.getD {}).http3_prior_knowledge = false)
    (hp : parse_url parsed = .ok u)
    (hh : u.host = some host)
    (hlt : Version.lt i.config.max_http_version .HTTP_3 = false)
    (hsh : (i.should_use_h3 probe host).1 = false)
    (hA : (fromHttpHeaders { host := host, browser := i.config.browser,
                             https := u.scheme == "https",
                             custom_headers := (o.getD {}).headers }).headers =
      some hdrs)
    (hts : altSvcOk resp = true) :
    i.make_request method parsed probe (.ok resp) body o =
      { outcome := .ok resp, networkCalls := 1, usedH3 := false,
        impitAfter := { i with h3_engine := some (altSvcUpdate
          (match i.h3_engine with
           | some e => e
           | none => H3Engine.init) host resp) } } := by
  have hsh2 := should_use_h3_snd_of_ceiling i probe host hlt
  unfold Impit.make_request
  dsimp only
  rcases hav : resp.get "Alt-Svc" with _ | v
  · simp [hpk, hp, hh, hsh, hsh2, hA, altSvcUpdate, hav]
  · rcases hts2 : headerValueToStr v with _ | sv
    · exfalso
      rw [altSvcOk, hav] at hts
      simp [hts2] at hts
    · simp [hpk, hp, hh, hsh, hsh2, hA, altSvcUpdate, hav, hts2]

/-- C6 (amended): on an engine whose ceiling allows HTTP/3, after every
successful request that did not use the upgraded transport the capability
cache entry for the request's host is set to unsupported when the
response's `Alt-Svc` header is absent or does not contain "h3", and to
supported when it does, and the next transport selection for that host
answers from the cache — whatever the probe says — provided any present
`Alt-Svc` value survives `to_str` (a non-visible-ASCII value instead
panics via the `.unwrap()` at impit.rs line 387, right after the host was
marked unsupported); engines with a lower ceiling never hold a capability
cache and record nothing (see the counterexample). -/
theorem claim_C6_cache_update (i : Impit) (method : String) (parsed : Option Url)
    (probe : String → Bool) (resp : Response) (body : Option (List Nat))
    (o : Option RequestOptions) (u : Url) (host : String)
    (hdrs : List (String × String))
    (hmax : i.config.max_http_version = .HTTP_3)
    (hpk : (o.getD {}).http3_prior_knowledge = false)
    (hp : parse_url parsed = .ok u)
    (hh : u.host = some host)
    (hsh : (i.should_use_h3 probe host).1 = false)
    (hA : (fromHttpHeaders { host := host, browser := i.config.browser,
                             https := u.scheme == "https",
                             custom_headers := (o.getD {}).headers }).headers =
      some hdrs)
    (hts : altSvcOk resp = true) :
    (i.make_request method parsed probe (.ok resp) body o).outcome = .ok resp ∧
      (i.make_request method parsed probe (.ok resp) body o).usedH3 = false ∧
      (∃ eng,
        (i.make_request method parsed probe (.ok resp) body o).impitAfter.h3_engine =
            some eng ∧
          eng.lookup host = some (altSvcVerdict resp)) ∧
      ∀ probe2,
        (((i.make_request method parsed probe (.ok resp) body o).impitAfter).should_use_h3
            probe2 host).1 = altSvcVerdict resp := by
  have hlt : Version.lt i.config.max_http_version .HTTP_3 = false := by
    rw [hmax]; rfl
  have heq := make_request_ok_noh3 i method parsed probe resp body o u host hdrs
    hpk hp hh hlt hsh hA hts
  rw [heq]
  refine ⟨rfl, rfl, ⟨_, rfl, altSvcUpdate_lookup _ _ _⟩, ?_⟩
  intro probe2
  unfold Impit.should_use_h3
  simp only [hlt]
  simp [H3Engine.host_supports_h3_of_lookup _ probe2 host _ (altSvcUpdate_lookup _ _ _)]

/-- C6 is false as stated for engines whose ceiling is below HTTP/3: on
the default (HTTP/2-ceiling) engine, a successful request that did not
use the upgraded transport and whose response has no `Alt-Svc` header
leaves the capability state untouched — `h3_engine` stays `None`, so no
host is marked unsupported (impit.rs line 383: the update is guarded by
`if let Some(h3_engine)`, and `should_use_h3` never initializes the
engine below an HTTP/3 ceiling). -/
theorem claim_C6_counterexample :
    ((Impit.new {}).make_request "GET" (some exampleUrl) (fun _ => false)
        (.ok { headers := [] }) none none).outcome = .ok { headers := [] } ∧
      ((Impit.new {}).make_request "GET" (some exampleUrl) (fun _ => false)
          (.ok { headers := [] }) none none).usedH3 = false ∧
      ((Impit.new {}).make_request "GET" (some exampleUrl) (fun _ => false)
          (.ok { headers := [] }) none none).impitAfter.h3_engine = none :=
  ⟨rfl, rfl, rfl⟩

theorem claim_C6_cache_update_witness :
    ((Impit.new { max_http_version := .HTTP_3 }).make_request "GET"
        (some exampleUrl) (fun _ => false)
        (.ok { headers := [("alt-svc", "h3=ok")] }) none none).outcome =
      .ok { headers := [("alt-svc", "h3=ok")] } ∧
    ((Impit.new { max_http_version := .HTTP_3 }).make_request "GET"
        (some exampleUrl) (fun _ => false)
        (.ok { headers := [("alt-svc", "h3=ok")] }) none none).usedH3 = false ∧
    (∃ eng,
      ((Impit.new { max_http_version := .HTTP_3 }).make_request "GET"
          (some exampleUrl) (fun _ => false)
          (.ok { headers := [("alt-svc", "h3=ok")] }) none
          none).impitAfter.h3_engine = some eng ∧
        eng.lookup "example.com" =
          some (altSvcVerdict { headers := [("alt-svc", "h3=ok")] })) ∧
    ∀ probe2,
      (((Impit.new { max_http_version := .HTTP_3 }).make_request "GET"
          (some exampleUrl) (fun _ => false)
          (.ok { headers := [("alt-svc", "h3=ok")] }) none
          none).impitAfter.should_use_h3 probe2 "example.com").1 =
        altSvcVerdict { headers := [("alt-svc", "h3=ok")] } :=
  claim_C6_cache_update (Impit.new { max_http_version := .HTTP_3 }) "GET"
    (some exampleUrl) (fun _ => false) { headers := [("alt-svc", "h3=ok")] }
    none none exampleUrl "example.com" [] (by decide) (by decide) rfl
    (by decide) (by decide) rfl (by decide)

/-- The fixed Chrome websocket table as it appears on the wire: every
name lowercase-normalized by `HeaderName::from_str`. -/
def chromeSocketWireHeaders : List (String × String) :=
  CHROME_SOCKET_HEADERS.map fun p => (lowerStr p.1, p.2)

theorem socket_headers_eq (host : String) (https : Bool) :
    (fromHttpHeaders { host := host, https := https,
                       custom_headers := chrome_websocket_headers }).headers =
      some chromeSocketWireHeaders := by
  rfl

/-- C7 is false as stated: `open_socket` never consults the caller's
per-call header overrides — the handshake header set is exactly the fixed
Chrome websocket table (impit.rs lines 427–431 pass only the fixed table
to the builder; `options.headers` is unused there).  Here the caller
supplies an `X-Custom` override and the raw upgrade request handed to the
WebSocket collaborator contains it under neither its original nor its
lowercased name. -/
theorem claim_C7_counterexample :
    ((Impit.new {}).open_socket (some exampleUrl) (fun _ => false)
        (some { headers := [("X-Custom", "1")] })).outcome =
      .handshake { method := "GET", uri := "https://example.com/",
                   version := .HTTP_11, headers := chromeSocketWireHeaders } ∧
      (chromeSocketWireHeaders.map Prod.fst).contains "X-Custom" = false ∧
      (chromeSocketWireHeaders.map Prod.fst).contains "x-custom" = false :=
  ⟨rfl, rfl, rfl⟩

/-- C7 (amended): for every `open_socket` call that passes URL validation,
on an engine satisfying the construction invariant: if the caller forces
the upgraded transport while the ceiling disallows it the call fails with
`Http3Disabled`; every other call hands the WebSocket collaborator a raw
upgrade request built from the fixed Chrome websocket header table alone
— independent of the engine's configured browser profile and ignoring
the caller's per-call header overrides, names lowercase-normalized by the
header type — carrying method GET, the parsed URL's serialization, and
HTTP/3 exactly when the h3 branch (forced or cache/probe-selected) was
taken, else the prepared request's default HTTP/1.1. -/
theorem claim_C7_socket_fixed_headers (i : Impit) (parsed : Option Url)
    (probe : String → Bool) (o : Option RequestOptions) (u : Url) (host : String)
    (hp : parse_url parsed = .ok u)
    (hh : u.host = some host)
    (hinv : i.h3_client.isSome = true ↔ i.config.max_http_version = .HTTP_3) :
    ((o.getD {}).http3_prior_knowledge = true ∧
        Version.lt i.config.max_http_version .HTTP_3 = true →
      (i.open_socket parsed probe o).outcome = .err .Http3Disabled) ∧
      (((o.getD {}).http3_prior_knowledge = true →
          Version.lt i.config.max_http_version .HTTP_3 = false) →
        (i.open_socket parsed probe o).outcome =
          .handshake { method := "GET", uri := u.asString,
                       version := if (o.getD {}).http3_prior_knowledge ||
                                     (i.should_use_h3 probe host).1
                                  then Version.HTTP_3 else Version.HTTP_11,
                       headers := chromeSocketWireHeaders }) := by
  constructor
  · rintro ⟨hpk, hlt⟩
    unfold Impit.open_socket
    dsimp only
    simp [hpk, hlt]
  · intro hg
    unfold Impit.open_socket
    dsimp only
    by_cases hpk : (o.getD {}).http3_prior_knowledge = true
    · have hlt := hg hpk
      have hmax := version_eq_h3_of_not_lt _ hlt
      obtain ⟨c, hc⟩ := Option.isSome_iff_exists.mp (hinv.mpr hmax)
      simp [hpk, hlt, hp, hh, hc, socket_headers_eq]
    · have hpk2 : (o.getD {}).http3_prior_knowledge = false := by simpa using hpk
      simp only [hpk2, Bool.false_and, Bool.false_eq_true, if_false, hp, hh]
      by_cases hsh : (i.should_use_h3 probe host).1 = true
      · obtain ⟨c, hc⟩ := Option.isSome_iff_exists.mp
          (hinv.mpr (should_use_h3_fst_true hsh))
        simp [hsh, hc, socket_headers_eq]
      · have hsh2 : (i.should_use_h3 probe host).1 = false := by simpa using hsh
        simp [hsh2, socket_headers_eq]

theorem claim_C7_socket_fixed_headers_witness :
    (((some { http3_prior_knowledge := true,
              headers := [("X-Custom", "1")] } : Option RequestOptions).getD
            {}).http3_prior_knowledge = true ∧
        Version.lt (Impit.new { max_http_version := .HTTP_3 }).config.max_http_version
          .HTTP_3 = true →
      ((Impit.new { max_http_version := .HTTP_3 }).open_socket (some exampleUrl)
          (fun _ => false)
          (some { http3_prior_knowledge := true,
                  headers := [("X-Custom", "1")] })).outcome = .err .Http3Disabled) ∧
      ((((some { http3_prior_knowledge := true,
                 headers := [("X-Custom", "1")] } : Option RequestOptions).getD
              {}).http3_prior_knowledge = true →
          Version.lt (Impit.new { max_http_version := .HTTP_3 }).config.max_http_version
            .HTTP_3 = false) →
        ((Impit.new { max_http_version := .HTTP_3 }).open_socket (some exampleUrl)
            (fun _ => false)
            (some { http3_prior_knowledge := true,
                    headers := [("X-Custom", "1")] })).outcome =
          .handshake { method := "GET", uri := exampleUrl.asString,
                       version := if (((some { http3_prior_knowledge := true,
                                               headers := [("X-Custom", "1")] } :
                                         Option RequestOptions).getD
                                         {}).http3_prior_knowledge ||
                                      ((Impit.new { max_http_version := .HTTP_3 }).should_use_h3
                                        (fun _ => false) "example.com").1)
                                  then Version.HTTP_3 else Version.HTTP_11,
                       headers := chromeSocketWireHeaders }) :=
  claim_C7_socket_fixed_headers (Impit.new { max_http_version := .HTTP_3 })
    (some exampleUrl) (fun _ => false)
    (some { http3_prior_knowledge := true, headers := [("X-Custom", "1")] })
    exampleUrl "example.com" rfl (by decide) (by decide)

/-- `ErrorType` of the `Retcher` engine (retcher.rs lines 9–15). -/
inductive RetErrorType
  | UrlParseError
  | ProtocolError
  | RequestError
  | ResponseError
deriving DecidableEq, Repr

/-- `RetcherConfig` (retcher.rs lines 17–20). -/
structure RetcherConfig where
  browser : Option Browser
  vanilla_fallback : Bool
deriving DecidableEq, Repr

/-- `RetcherBuilder` with its `Default` values (retcher.rs lines 36–51). -/
structure RetcherBuilder where
  browser : Option Browser := none
  ignore_tls_errors : Bool := false
  vanilla_fallback : Bool := true
deriving DecidableEq, Repr

/-- `Into<RetcherConfig> for RetcherBuilder` (retcher.rs lines 74–81). -/
def RetcherBuilder.toConfig (b : RetcherBuilder) : RetcherConfig :=
  { browser := b.browser, vanilla_fallback := b.vanilla_fallback }

/-- The configuration of `Retcher::default()` (retcher.rs lines 30–34):
built from the default builder — browser `None`, `vanilla_fallback`
`true`. -/
def Retcher.defaultConfig : RetcherConfig :=
  RetcherBuilder.toConfig {}

/-- `Retcher::parse_url` (retcher.rs lines 117–136): unlike the `Impit`
variant, a missing host also maps to `UrlParseError`. -/
def Retcher.parse_url (parsed : Option Url) : Except RetErrorType Url :=
  match parsed with
  | none => .error .UrlParseError
  | some u =>
    if u.host.isNone then .error .UrlParseError
    else if u.scheme == "http" then .ok u
    else if u.scheme == "https" then .ok u
    else .error .ProtocolError

/-- `RequestOptions` of the retcher crate (retcher.rs lines 84–96): only
custom headers. -/
structure RetRequestOptions where
  headers : List (String × String) := []
deriving DecidableEq, Repr

/-- Outcome of a `Retcher::get` call. -/
inductive RetOutcome
  | err (e : RetErrorType)
  | ok (r : Response)
deriving DecidableEq, Repr

/-- Result of a `Retcher::get` call together with the configurations the
transport was executed under, in order — the observable retry trace. -/
structure RetResult where
  outcome : RetOutcome
  attempts : List RetcherConfig
deriving DecidableEq, Repr

/-- `Retcher::get` (retcher.rs lines 142–175).  The request construction
(headers from the retcher crate's own header module, which is not under
`src/`) is abstracted into the transport oracle `send`, which receives
the engine configuration the request was built under.  On a transport
error, when `vanilla_fallback` is set and a browser is configured, the
call recurses with `Retcher::default()`; that configuration has no
browser, which is what stops the recursion. -/
def Retcher.get (send : RetcherConfig → Except String Response)
    (cfg : RetcherConfig) (parsed : Option Url)
    (options : Option RetRequestOptions) : RetResult :=
  match Retcher.parse_url parsed with
  | .error e => { outcome := .err e, attempts := [] }
  | .ok _ =>
    match send cfg with
    | .ok r => { outcome := .ok r, attempts := [cfg] }
    | .error _ =>
      if !cfg.vanilla_fallback || cfg.browser.isNone then
        { outcome := .err .RequestError, attempts := [cfg] }
      else
        let rr := Retcher.get send Retcher.defaultConfig parsed options
        { outcome := rr.outcome, attempts := cfg :: rr.attempts }
termination_by (if cfg.browser.isSome then 1 else 0)
decreasing_by
  simp_all [Retcher.defaultConfig, RetcherBuilder.toConfig, Option.isSome_iff_ne_none]

theorem retcher_attempts_le (send : RetcherConfig → Except String Response)
    (cfg : RetcherConfig) (parsed : Option Url)
    (options : Option RetRequestOptions) :
    (Retcher.get send cfg parsed options).attempts.length ≤ 2 := by
  rw [Retcher.get]
  rcases hpe : Retcher.parse_url parsed with e1 | u
  · simp
  · simp only []
    rcases hs : send cfg with e2 | r
    · simp only []
      split
      · simp
      · rw [Retcher.get]
        simp only [hpe]
        rcases hs2 : send Retcher.defaultConfig with e3 | r2
        · simp [Retcher.defaultConfig, RetcherBuilder.toConfig]
        · simp
    · simp

/-- C4 is false as stated: on a transport failure the retry is issued via
`Retcher::default().get(...)` (retcher.rs line 171), and
`RetcherBuilder::default()` sets `vanilla_fallback: true` (line 48) — the
retried request runs with the fallback flag still enabled, not disabled.
The trace shows the retry configuration, whose `vanilla_fallback` is
`true`. -/
theorem claim_C4_counterexample :
    (Retcher.get (fun _ => .error "io")
        { browser := some Browser.Chrome, vanilla_fallback := true }
        (some exampleUrl) none).attempts =
      [{ browser := some Browser.Chrome, vanilla_fallback := true },
       Retcher.defaultConfig] ∧
      Retcher.defaultConfig.vanilla_fallback = true := by
  refine ⟨?_, rfl⟩
  rw [Retcher.get, Retcher.get]
  simp [Retcher.parse_url, exampleUrl, Retcher.defaultConfig, RetcherBuilder.toConfig]

/-- C4 (amended): when vanilla fallback is enabled and the engine is
configured with an impersonation profile, a transport failure causes
exactly one re-issue of the same logical request through the default
(unimpersonated) configuration, whose outcome is returned to the caller;
the retried request runs with the fallback flag still enabled but with no
browser profile, and it is the absence of a profile — not a disabled
flag — that stops the recursion, which is bounded by two transport
attempts for every input. -/
theorem claim_C4_vanilla_fallback (send : RetcherConfig → Except String Response)
    (cfg : RetcherConfig) (parsed : Option Url) (u : Url)
    (options : Option RetRequestOptions) (e : String)
    (hparse : Retcher.parse_url parsed = .ok u)
    (hbrowser : cfg.browser.isSome = true)
    (hfb : cfg.vanilla_fallback = true)
    (hfail : send cfg = .error e) :
    (Retcher.get send cfg parsed options).outcome =
        (Retcher.get send Retcher.defaultConfig parsed options).outcome ∧
      (Retcher.get send cfg parsed options).attempts =
        [cfg, Retcher.defaultConfig] ∧
      Retcher.defaultConfig.browser = none ∧
      Retcher.defaultConfig.vanilla_fallback = true ∧
      ∀ send2 cfg2 parsed2 options2,
        (Retcher.get send2 cfg2 parsed2 options2).attempts.length ≤ 2 := by
  have hnone : cfg.browser.isNone = false := by
    rcases hb : cfg.browser with _ | b
    · rw [hb] at hbrowser; simp at hbrowser
    · simp
  have hrr : (Retcher.get send Retcher.defaultConfig parsed options).attempts =
      [Retcher.defaultConfig] := by
    rw [Retcher.get]
    simp only [hparse]
    rcases hs2 : send Retcher.defaultConfig with e3 | r2
    · simp [Retcher.defaultConfig, RetcherBuilder.toConfig]
    · simp
  refine ⟨?_, ?_, rfl, rfl, fun s2 c2 p2 o2 => retcher_attempts_le s2 c2 p2 o2⟩
  · conv_lhs => rw [Retcher.get]
    simp [hparse, hfail, hfb, hnone]
  · conv_lhs => rw [Retcher.get]
    simp [hparse, hfail, hfb, hnone, hrr]

theorem claim_C4_vanilla_fallback_witness :
    (Retcher.get
          (fun c => if c.browser.isSome then .error "impersonated path down"
                    else .ok { headers := [] })
          { browser := some Browser.Chrome, vanilla_fallback := true }
          (some exampleUrl) none).outcome =
        (Retcher.get
          (fun c => if c.browser.isSome then .error "impersonated path down"
                    else .ok { headers := [] })
          Retcher.defaultConfig (some exampleUrl) none).outcome ∧
      (Retcher.get
          (fun c => if c.browser.isSome then .error "impersonated path down"
                    else .ok { headers := [] })
          { browser := some Browser.Chrome, vanilla_fallback := true }
          (some exampleUrl) none).attempts =
        [{ browser := some Browser.Chrome, vanilla_fallback := true },
         Retcher.defaultConfig] ∧
      Retcher.defaultConfig.browser = none ∧
      Retcher.defaultConfig.vanilla_fallback = true ∧
      ∀ send2 cfg2 parsed2 options2,
        (Retcher.get send2 cfg2 parsed2 options2).attempts.length ≤ 2 :=
  claim_C4_vanilla_fallback
    (fun c => if c.browser.isSome then .error "impersonated path down"
              else .ok { headers := [] })
    { browser := some Browser.Chrome, vanilla_fallback := true }
    (some exampleUrl) exampleUrl none "impersonated path down"
    rfl (by decide) (by decide) rfl
